import Mathlib

/-!
Shallow embedding of the ID-card request service (src/server.js).

The service keeps four document collections on one mongoose connection
(readyState 1 means connected) and serves six routes.  The embedding models
the database as explicit lists of documents, each route handler as a pure
function from the database state (plus fault injection for the storage
driver) to a response and a new state, and the express dispatch — the
connection gate registered before every route — as `serverHandle`.
-/

set_option autoImplicit false

namespace IdCardService

/-- A document of the `printids` collection (printIdSchema, server.js lines
98 to 112).  Every schema field is a plain `String` with no default, so a
document may lack it; `createdAt` has a default and is always present. -/
structure PrintDoc where
  registerNumber : Option String
  name : Option String
  dob : Option String
  department : Option String
  year : Option String
  «section» : Option String
  libraryCode : Option String
  reason : Option String
  createdAt : Nat
deriving DecidableEq, Repr

/-- A document of the `acceptedidcards` collection (acceptedIdCardSchema,
server.js lines 42 to 59).  `status` defaults to "accepted" and
`acceptedAt` to the current time, so both are always present. -/
structure AcceptedDoc where
  registerNumber : Option String
  name : Option String
  dob : Option String
  department : Option String
  year : Option String
  «section» : Option String
  libraryCode : Option String
  reason : Option String
  status : String
  acceptedAt : Nat
deriving DecidableEq, Repr

/-- A document of the `acchistoryids` collection (AcchistoryIdSchema,
server.js lines 61 to 75). -/
structure HistoryDoc where
  registerNumber : Option String
  name : Option String
  dob : Option String
  department : Option String
  year : Option String
  «section» : Option String
  libraryCode : Option String
  reason : Option String
  status : Option String
  createdAt : Nat
deriving DecidableEq, Repr

/-- A document of the `adminids` collection (adminIdSchema, server.js lines
90 to 92). -/
structure AdminDoc where
  adminid : Option String
deriving DecidableEq, Repr

/-- The JSON body of a POST /api/accept-idcard request, restricted to the
schema fields mongoose keeps (strict mode drops the rest).  `none` means
the field is absent from the body. -/
structure Body where
  registerNumber : Option String
  name : Option String
  dob : Option String
  department : Option String
  year : Option String
  «section» : Option String
  libraryCode : Option String
  reason : Option String
  status : Option String
  acceptedAt : Option Nat
deriving DecidableEq, Repr

/-- The state of the `studentDb` connection: the mongoose `readyState`
(1 means connected) and the four collections, each in storage order. -/
structure DB where
  readyState : Nat
  printids : List PrintDoc
  acceptedidcards : List AcceptedDoc
  acchistoryids : List HistoryDoc
  adminids : List AdminDoc
deriving DecidableEq, Repr

/-- Fault injection for the storage driver: each field, when `some msg`,
makes the corresponding storage operation of the request throw an error
whose message is `msg`; `none` lets it succeed. -/
structure Faults where
  findFail : Option String
  saveFail : Option String
  deleteFail : Option String
deriving DecidableEq, Repr

/-- All storage operations succeed. -/
def Faults.ok : Faults := ⟨none, none, none⟩

/-- The JSON bodies the service can respond with. -/
inductive ResBody where
  /-- `error: msg` -/
  | errorMsg (msg : String)
  /-- `ok: okFlag, db: dbFlag` (the /healthz body) -/
  | health (okFlag : Bool) (dbFlag : Bool)
  /-- JSON array of printids documents -/
  | printedList (docs : List PrintDoc)
  /-- JSON array of acchistoryids documents -/
  | historyList (docs : List HistoryDoc)
  /-- JSON array of acceptedidcards documents -/
  | acceptedList (docs : List AcceptedDoc)
  /-- `message: msg, data: saved` (the 201 accept body) -/
  | acceptOk (msg : String) (data : AcceptedDoc)
  /-- `success: flag` with an optional `message` (the login body) -/
  | loginRes (success : Bool) (msg : Option String)
deriving DecidableEq, Repr

/-- An HTTP response: status code and JSON body. -/
structure Response where
  status : Nat
  body : ResBody
deriving DecidableEq, Repr

/-- The requests the routes of server.js accept.  For POST routes the
parsed JSON body is carried in the constructor; for /api/login only the
`adminId` field is read (`none` models an absent or undefined field). -/
inductive Request where
  | healthz
  | printed
  | acchistoryids
  | acceptedIdcards
  | acceptIdcard (body : Body)
  | login (adminId : Option String)
deriving DecidableEq, Repr

/-- Mongoose filter semantics for `deleteOne (registerNumber := reg)`
(server.js line 171): a key whose value is undefined is dropped from the
filter, so an absent `registerNumber` matches every document; a string
matches documents whose `registerNumber` equals it. -/
def printMatches (reg : Option String) (d : PrintDoc) : Bool :=
  match reg with
  | none => true
  | some s => d.registerNumber = some s

/-- `deleteOne`: remove the first document matching the filter, if any;
zero matches leave the list unchanged and later matches are kept. -/
def deleteOneByReg (reg : Option String) : List PrintDoc → List PrintDoc
  | [] => []
  | d :: rest => if printMatches reg d then rest else d :: deleteOneByReg reg rest

/-- `new AcceptedIdCard (req.body)` then `save` (server.js lines 167 to
168): the schema fields are taken from the body as given, `status`
defaults to "accepted" and `acceptedAt` to the current time when absent. -/
def mkAccepted (b : Body) (now : Nat) : AcceptedDoc :=
  { registerNumber := b.registerNumber
    name := b.name
    dob := b.dob
    department := b.department
    year := b.year
    «section» := b.«section»
    libraryCode := b.libraryCode
    reason := b.reason
    status := b.status.getD "accepted"
    acceptedAt := b.acceptedAt.getD now }

/-- Mongoose filter semantics for `findOne (adminid := submitted)`
(server.js line 187): an undefined value is dropped from the filter, which
then matches every document; a string matches documents whose `adminid`
equals it. -/
def adminMatches (submitted : Option String) (d : AdminDoc) : Bool :=
  match submitted with
  | none => true
  | some s => d.adminid = some s

/-- `AdminId.findOne (adminid := submitted)`: the first document of the
collection matching the filter. -/
def loginLookup (adminids : List AdminDoc) (submitted : Option String) :
    Option AdminDoc :=
  adminids.find? (adminMatches submitted)

/-- The connection-gate response (server.js line 119). -/
def gateResponse : Response :=
  ⟨503, .errorMsg "Database connecting. Please retry."⟩

/-- GET /healthz handler (server.js lines 125 to 127): always 200, `ok`
literally true, `db` reflecting the connection state. -/
def handleHealthz (db : DB) : Response × DB :=
  (⟨200, .health true (db.readyState == 1)⟩, db)

/-- GET /api/printed handler (server.js lines 130 to 137). -/
def handlePrinted (db : DB) (findFail : Option String) : Response × DB :=
  match findFail with
  | some m => (⟨500, .errorMsg m⟩, db)
  | none => (⟨200, .printedList db.printids⟩, db)

/-- GET /api/acchistoryids handler (server.js lines 140 to 147). -/
def handleAcchistory (db : DB) (findFail : Option String) : Response × DB :=
  match findFail with
  | some m => (⟨500, .errorMsg m⟩, db)
  | none => (⟨200, .historyList db.acchistoryids⟩, db)

/-- GET /api/accepted-idcards handler (server.js lines 150 to 157). -/
def handleAcceptedCards (db : DB) (findFail : Option String) : Response × DB :=
  match findFail with
  | some m => (⟨500, .errorMsg m⟩, db)
  | none => (⟨200, .acceptedList db.acceptedidcards⟩, db)

/-- The body of the accept handler after its readiness check (server.js
lines 166 to 180): save the new accepted document, then delete one
matching printids document, answering 201 on success; an error thrown by
either step is caught and answered with 500 and the raw message, with no
rollback of a save that already happened. -/
def acceptCore (db : DB) (b : Body) (now : Nat)
    (saveFail deleteFail : Option String) : Response × DB :=
  match saveFail with
  | some m => (⟨500, .errorMsg m⟩, db)
  | none =>
    let saved := mkAccepted b now
    let db1 : DB := { db with acceptedidcards := db.acceptedidcards ++ [saved] }
    match deleteFail with
    | some m => (⟨500, .errorMsg m⟩, db1)
    | none =>
      let db2 : DB :=
        { db1 with printids := deleteOneByReg b.registerNumber db1.printids }
      (⟨201, .acceptOk "ID card request accepted successfully" saved⟩, db2)

/-- POST /api/accept-idcard handler (server.js lines 160 to 181),
including its own readiness check at lines 162 to 164. -/
def handleAcceptIdcard (db : DB) (b : Body) (now : Nat)
    (saveFail deleteFail : Option String) : Response × DB :=
  if db.readyState ≠ 1 then (⟨500, .errorMsg "Database not connected"⟩, db)
  else acceptCore db b now saveFail deleteFail

/-- POST /api/login handler (server.js lines 184 to 196). -/
def handleLogin (db : DB) (adminId : Option String)
    (findFail : Option String) : Response × DB :=
  match findFail with
  | some m => (⟨500, .errorMsg m⟩, db)
  | none =>
    match loginLookup db.adminids adminId with
    | some _ => (⟨200, .loginRes true none⟩, db)
    | none => (⟨401, .loginRes false (some "Invalid admin ID")⟩, db)

/-- One request through the express app: the gate middleware (server.js
lines 117 to 122) is registered before every route and so runs first for
every path, /healthz included; when the connection is ready the request is
dispatched to its route handler. -/
def serverHandle (db : DB) (req : Request) (fx : Faults) (now : Nat) :
    Response × DB :=
  if db.readyState ≠ 1 then (gateResponse, db)
  else
    match req with
    | .healthz => handleHealthz db
    | .printed => handlePrinted db fx.findFail
    | .acchistoryids => handleAcchistory db fx.findFail
    | .acceptedIdcards => handleAcceptedCards db fx.findFail
    | .acceptIdcard b => handleAcceptIdcard db b now fx.saveFail fx.deleteFail
    | .login adminId => handleLogin db adminId fx.findFail

/-- Matching predicate on accepted documents: registerNumber equals `reg`
and status equals `st`. -/
def acceptedMatches (reg st : String) (d : AcceptedDoc) : Bool :=
  d.registerNumber == some reg && d.status == st

/-- Sample accept body: registerNumber "R100", every other field absent. -/
def bodyR100 : Body :=
  ⟨some "R100", none, none, none, none, none, none, none, none, none⟩

/-- A printids document with registerNumber "R100". -/
def pR100a : PrintDoc :=
  ⟨some "R100", none, none, none, none, none, none, none, 0⟩

/-- A second, distinct printids document with registerNumber "R100". -/
def pR100b : PrintDoc :=
  ⟨some "R100", none, none, none, none, none, none, none, 1⟩

/-- `deleteOne` with a filter matching no document leaves the collection
unchanged. -/
theorem deleteOneByReg_of_no_match (reg : Option String) (l : List PrintDoc)
    (h : ∀ d ∈ l, printMatches reg d = false) : deleteOneByReg reg l = l := by
  induction l with
  | nil => rfl
  | cons d rest ih =>
    have hd := h d (List.mem_cons_self d rest)
    simp [deleteOneByReg, hd, ih fun x hx => h x (List.mem_cons_of_mem d hx)]

/-- `deleteOne` removes exactly one document when the filter matches one,
and none otherwise. -/
theorem length_deleteOneByReg (reg : Option String) (l : List PrintDoc) :
    (deleteOneByReg reg l).length =
      if l.any (printMatches reg) then l.length - 1 else l.length := by
  induction l with
  | nil => rfl
  | cons d rest ih =>
    by_cases hm : printMatches reg d = true
    · simp [deleteOneByReg, hm]
    · rw [deleteOneByReg]
      rw [if_neg (by simp [hm])]
      cases hr : rest.any (printMatches reg) with
      | false => simp [List.any_cons, hm, hr, ih]
      | true =>
        have hpos : 0 < rest.length := by
          rcases List.any_eq_true.mp hr with ⟨x, hx, _⟩
          exact List.length_pos.mpr (List.ne_nil_of_mem hx)
        simp only [List.any_cons, hm, Bool.false_or, hr, if_pos, List.length_cons, ih]
        omega

/-- When at most one document matches the filter, `deleteOne` leaves no
matching document behind. -/
theorem countP_deleteOneByReg_eq_zero (reg : Option String) (l : List PrintDoc)
    (h : l.countP (printMatches reg) ≤ 1) :
    (deleteOneByReg reg l).countP (printMatches reg) = 0 := by
  induction l with
  | nil => rfl
  | cons d rest ih =>
    by_cases hm : printMatches reg d = true
    · rw [deleteOneByReg, if_pos hm]
      have hc : rest.countP (printMatches reg) + 1 ≤ 1 := by
        simpa [List.countP_cons, hm] using h
      have hz : rest.countP (printMatches reg) = 0 := by omega
      calc rest.countP (printMatches reg)
      _ = 0 := hz
    · rw [deleteOneByReg, if_neg (by simp [hm])]
      have hc : rest.countP (printMatches reg) ≤ 1 := by
        simpa [List.countP_cons, hm] using h
      simp [List.countP_cons, hm, ih hc]

/-- `findOne` with an empty filter returns the first document of the
collection. -/
theorem loginLookup_of_undefined (l : List AdminDoc) :
    loginLookup l none = l.head? := by
  cases l with
  | nil => rfl
  | cons d rest => rfl

/-- C4: for every request to any route issued while the connection
ready-state is not 1 (connected), the gate answers 503 with
`error: Database connecting. Please retry.` and the database state —
all four collections — is left unchanged. -/
theorem gate_blocks_all_routes (db : DB) (req : Request) (fx : Faults)
    (now : Nat) (h : db.readyState ≠ 1) :
    serverHandle db req fx now =
      (⟨503, .errorMsg "Database connecting. Please retry."⟩, db) := by
  simp [serverHandle, gateResponse, h]

/-- Witness for `gate_blocks_all_routes` at ready-state 0 and the
/api/printed route. -/
theorem gate_blocks_all_routes_witness :
    (⟨0, [], [], [], []⟩ : DB).readyState ≠ 1 ∧
      serverHandle ⟨0, [], [], [], []⟩ .printed Faults.ok 0 =
        (⟨503, .errorMsg "Database connecting. Please retry."⟩,
          ⟨0, [], [], [], []⟩) :=
  ⟨by decide, gate_blocks_all_routes ⟨0, [], [], [], []⟩ .printed Faults.ok 0
    (by decide)⟩

/-- C3: at the failing input — GET /healthz while the connection
ready-state is 0 — the gate middleware, registered before the /healthz
route, answers 503 instead of letting the route answer 200 with the
health body; the second conjunct shows what the route alone would have
answered. -/
theorem healthz_gated_while_connecting :
    serverHandle ⟨0, [], [], [], []⟩ .healthz Faults.ok 0 =
      (⟨503, .errorMsg "Database connecting. Please retry."⟩,
        ⟨0, [], [], [], []⟩) ∧
    handleHealthz ⟨0, [], [], [], []⟩ =
      (⟨200, .health true false⟩, ⟨0, [], [], [], []⟩) :=
  ⟨rfl, rfl⟩

/-- C10: the internal readiness check of the accept handler is redundant
behind the gate: one request through the express app behaves exactly as
the gate followed by `acceptCore`, the handler body with the internal
not-connected branch removed — that branch is unreachable. -/
theorem accept_internal_check_redundant (db : DB) (b : Body) (fx : Faults)
    (now : Nat) :
    serverHandle db (.acceptIdcard b) fx now =
      if db.readyState = 1 then acceptCore db b now fx.saveFail fx.deleteFail
      else (gateResponse, db) := by
  by_cases h : db.readyState = 1 <;>
    simp [serverHandle, handleAcceptIdcard, h]

/-- C8: with the connection ready, each of the three GET routes answers
200 with the full list of documents of its collection — an empty
collection yields an empty array, not an error — and a storage error
yields 500 with the raw error message. -/
theorem read_endpoints_contract (db : DB) (fx : Faults) (now : Nat)
    (h : db.readyState = 1) :
    (fx.findFail = none →
      serverHandle db .printed fx now =
        (⟨200, .printedList db.printids⟩, db) ∧
      serverHandle db .acchistoryids fx now =
        (⟨200, .historyList db.acchistoryids⟩, db) ∧
      serverHandle db .acceptedIdcards fx now =
        (⟨200, .acceptedList db.acceptedidcards⟩, db)) ∧
    (∀ m, fx.findFail = some m →
      serverHandle db .printed fx now = (⟨500, .errorMsg m⟩, db) ∧
      serverHandle db .acchistoryids fx now = (⟨500, .errorMsg m⟩, db) ∧
      serverHandle db .acceptedIdcards fx now = (⟨500, .errorMsg m⟩, db)) := by
  refine ⟨fun hf => ?_, fun m hf => ?_⟩ <;>
    simp [serverHandle, handlePrinted, handleAcchistory, handleAcceptedCards,
      h, hf]

/-- Witness for `read_endpoints_contract`: an empty printids collection
answers 200 with the empty array. -/
theorem read_endpoints_contract_witness :
    serverHandle ⟨1, [], [], [], []⟩ .printed Faults.ok 0 =
      (⟨200, .printedList []⟩, ⟨1, [], [], [], []⟩) :=
  ((read_endpoints_contract ⟨1, [], [], [], []⟩ Faults.ok 0 rfl).1 rfl).1

/-- C5: the insert into acceptedidcards happens strictly before the
delete from printids: whenever the save succeeds, the saved accepted
document is in the final state whatever the delete does, and a failing
delete yields 500 with the raw message while the inserted document stays
stored (no rollback). -/
theorem accept_insert_persists (db : DB) (b : Body) (fx : Faults) (now : Nat)
    (h : db.readyState = 1) (hs : fx.saveFail = none) :
    mkAccepted b now ∈
      (serverHandle db (.acceptIdcard b) fx now).2.acceptedidcards ∧
    ∀ m, fx.deleteFail = some m →
      serverHandle db (.acceptIdcard b) fx now =
        (⟨500, .errorMsg m⟩,
          { db with acceptedidcards :=
              db.acceptedidcards ++ [mkAccepted b now] }) := by
  refine ⟨?_, fun m hm => ?_⟩
  · cases hd : fx.deleteFail <;>
      simp [serverHandle, handleAcceptIdcard, acceptCore, h, hs, hd]
  · simp [serverHandle, handleAcceptIdcard, acceptCore, h, hs, hm]

/-- Witness for `accept_insert_persists` with an injected delete
failure. -/
theorem accept_insert_persists_witness :
    mkAccepted bodyR100 0 ∈
      (serverHandle ⟨1, [pR100a], [], [], []⟩ (.acceptIdcard bodyR100)
        ⟨none, none, some "delete failed"⟩ 0).2.acceptedidcards :=
  (accept_insert_persists ⟨1, [pR100a], [], [], []⟩ bodyR100
    ⟨none, none, some "delete failed"⟩ 0 rfl rfl).1

/-- C7: a successful accept stores the document built from the request
body verbatim — schema fields copied as given, status defaulted to
"accepted" and acceptedAt to the current time when absent — and answers
201 with the message and the saved document. -/
theorem accept_success_builds_doc (db : DB) (b : Body) (fx : Faults)
    (now : Nat) (h : db.readyState = 1) (hs : fx.saveFail = none)
    (hd : fx.deleteFail = none) :
    serverHandle db (.acceptIdcard b) fx now =
      (⟨201, .acceptOk "ID card request accepted successfully"
          (mkAccepted b now)⟩,
        { db with
            acceptedidcards := db.acceptedidcards ++ [mkAccepted b now]
            printids := deleteOneByReg b.registerNumber db.printids }) ∧
    mkAccepted b now =
      { registerNumber := b.registerNumber
        name := b.name
        dob := b.dob
        department := b.department
        year := b.year
        «section» := b.«section»
        libraryCode := b.libraryCode
        reason := b.reason
        status := b.status.getD "accepted"
        acceptedAt := b.acceptedAt.getD now } := by
  refine ⟨?_, rfl⟩
  simp [serverHandle, handleAcceptIdcard, acceptCore, h, hs, hd]

/-- Witness for `accept_success_builds_doc` on a one-element printids
collection. -/
theorem accept_success_builds_doc_witness :
    serverHandle ⟨1, [pR100a], [], [], []⟩ (.acceptIdcard bodyR100)
        Faults.ok 0 =
      (⟨201, .acceptOk "ID card request accepted successfully"
          (mkAccepted bodyR100 0)⟩,
        ⟨1, [], [mkAccepted bodyR100 0], [], []⟩) :=
  (accept_success_builds_doc ⟨1, [pR100a], [], [], []⟩ bodyR100 Faults.ok 0
    rfl rfl rfl).1

/-- C2 counterexample: a login request whose body carries no adminId,
against a non-empty adminids collection, answers 200 success even though
no document has an adminid equal to the submitted (absent) value — the
claimed "200 iff exact match" equivalence fails at this input. -/
theorem login_exact_match_counterexample :
    (serverHandle ⟨1, [], [], [], [⟨some "A1"⟩]⟩ (.login none)
        Faults.ok 0).1 = ⟨200, .loginRes true none⟩ ∧
    ∀ d ∈ ([⟨some "A1"⟩] : List AdminDoc), d.adminid ≠ none := by
  decide

/-- C2 amended: for login requests whose body supplies adminId as a
string, with the connection ready, the response is 200 success iff some
adminids document has exactly that adminid (case-sensitively); with no
such document it is 401 invalid; a storage error yields 500 with the raw
message. -/
theorem login_exact_match (db : DB) (s : String) (fx : Faults) (now : Nat)
    (h : db.readyState = 1) :
    (fx.findFail = none →
      ((serverHandle db (.login (some s)) fx now =
          (⟨200, .loginRes true none⟩, db)) ↔
        ∃ d ∈ db.adminids, d.adminid = some s) ∧
      ((∀ d ∈ db.adminids, d.adminid ≠ some s) →
        serverHandle db (.login (some s)) fx now =
          (⟨401, .loginRes false (some "Invalid admin ID")⟩, db))) ∧
    (∀ m, fx.findFail = some m →
      serverHandle db (.login (some s)) fx now =
        (⟨500, .errorMsg m⟩, db)) := by
  refine ⟨fun hf => ⟨?_, fun hno => ?_⟩, fun m hf => ?_⟩
  · cases hl : loginLookup db.adminids (some s) with
    | some d =>
      have hmem := List.mem_of_find?_eq_some hl
      have hp : adminMatches (some s) d = true := List.find?_some hl
      have heq : d.adminid = some s := by
        simpa [adminMatches] using hp
      simp only [serverHandle, handleLogin, h, hf, hl]
      exact ⟨fun _ => ⟨d, hmem, heq⟩, fun _ => by simp⟩
    | none =>
      have hall := List.find?_eq_none.mp hl
      simp only [serverHandle, handleLogin, h, hf, hl]
      constructor
      · intro hcontra
        exact absurd hcontra (by simp)
      · rintro ⟨d, hmem, heq⟩
        exact absurd (by simpa [adminMatches] using heq) (hall d hmem)
  · have hl : loginLookup db.adminids (some s) = none := by
      apply List.find?_eq_none.mpr
      intro d hmem
      simpa [adminMatches] using hno d hmem
    simp [serverHandle, handleLogin, h, hf, hl]
  · simp [serverHandle, handleLogin, h, hf]

/-- Witness for `login_exact_match`: adminId "A1" against a collection
holding exactly that id answers 200 success. -/
theorem login_exact_match_witness :
    serverHandle ⟨1, [], [], [], [⟨some "A1"⟩]⟩ (.login (some "A1"))
        Faults.ok 0 =
      (⟨200, .loginRes true none⟩, ⟨1, [], [], [], [⟨some "A1"⟩]⟩) :=
  (((login_exact_match ⟨1, [], [], [], [⟨some "A1"⟩]⟩ "A1" Faults.ok 0
    rfl).1 rfl).1).mpr ⟨⟨some "A1"⟩, by simp, rfl⟩

/-- C9: a login request whose body carries no adminId runs `findOne` with
the undefined value dropped from the filter, so it returns the first
document of a non-empty adminids collection and the response is 200
success. -/
theorem login_undefined_adminid (db : DB) (fx : Faults) (now : Nat)
    (h : db.readyState = 1) (hne : db.adminids ≠ [])
    (hf : fx.findFail = none) :
    loginLookup db.adminids none = db.adminids.head? ∧
    serverHandle db (.login none) fx now =
      (⟨200, .loginRes true none⟩, db) := by
  refine ⟨loginLookup_of_undefined db.adminids, ?_⟩
  cases hA : db.adminids with
  | nil => exact absurd hA hne
  | cons d rest =>
    simp [serverHandle, handleLogin, h, hf, loginLookup, hA, adminMatches,
      List.find?]

/-- Witness for `login_undefined_adminid` on a one-element adminids
collection whose document does not match the absent value. -/
theorem login_undefined_adminid_witness :
    (⟨1, [], [], [], [⟨some "A1"⟩]⟩ : DB).adminids ≠ [] ∧
    serverHandle ⟨1, [], [], [], [⟨some "A1"⟩]⟩ (.login none) Faults.ok 0 =
      (⟨200, .loginRes true none⟩, ⟨1, [], [], [], [⟨some "A1"⟩]⟩) :=
  ⟨by decide, (login_undefined_adminid ⟨1, [], [], [], [⟨some "A1"⟩]⟩
    Faults.ok 0 rfl (by decide) rfl).2⟩

/-- C6 counterexample: with two printids documents both carrying
registerNumber "R100", a successful accept (201) leaves the second
matching document in the collection — `deleteOne` does not delete every
matching document. -/
theorem deleteOne_leaves_duplicates :
    (serverHandle ⟨1, [pR100a, pR100b], [], [], []⟩
        (.acceptIdcard bodyR100) Faults.ok 0).1.status = 201 ∧
    pR100b ∈ (serverHandle ⟨1, [pR100a, pR100b], [], [], []⟩
        (.acceptIdcard bodyR100) Faults.ok 0).2.printids ∧
    printMatches bodyR100.registerNumber pR100b = true := by
  decide

/-- C6 amended: a successful accept answers 201 whatever the number of
matching printids documents, and deletes exactly the first matching
document when one exists: the resulting collection is `deleteOneByReg`
of the old one, its length drops by one exactly when a match existed,
and with zero matches the collection is unchanged. -/
theorem deleteOne_first_match (db : DB) (b : Body) (fx : Faults) (now : Nat)
    (h : db.readyState = 1) (hs : fx.saveFail = none)
    (hd : fx.deleteFail = none) :
    (serverHandle db (.acceptIdcard b) fx now).1.status = 201 ∧
    (serverHandle db (.acceptIdcard b) fx now).2.printids =
      deleteOneByReg b.registerNumber db.printids ∧
    (serverHandle db (.acceptIdcard b) fx now).2.printids.length =
      (if db.printids.any (printMatches b.registerNumber)
        then db.printids.length - 1 else db.printids.length) ∧
    ((∀ d ∈ db.printids, printMatches b.registerNumber d = false) →
      (serverHandle db (.acceptIdcard b) fx now).2.printids =
        db.printids) := by
  have hmain : serverHandle db (.acceptIdcard b) fx now =
      (⟨201, .acceptOk "ID card request accepted successfully"
          (mkAccepted b now)⟩,
        { db with
            acceptedidcards := db.acceptedidcards ++ [mkAccepted b now]
            printids := deleteOneByReg b.registerNumber db.printids }) := by
    simp [serverHandle, handleAcceptIdcard, acceptCore, h, hs, hd]
  rw [hmain]
  exact ⟨rfl, rfl, length_deleteOneByReg b.registerNumber db.printids,
    fun hno => deleteOneByReg_of_no_match b.registerNumber db.printids hno⟩

/-- Witness for `deleteOne_first_match`: on two matching documents the
accept succeeds and only the first is removed. -/
theorem deleteOne_first_match_witness :
    (serverHandle ⟨1, [pR100a, pR100b], [], [], []⟩
        (.acceptIdcard bodyR100) Faults.ok 0).1.status = 201 ∧
    (serverHandle ⟨1, [pR100a, pR100b], [], [], []⟩
        (.acceptIdcard bodyR100) Faults.ok 0).2.printids = [pR100b] :=
  ⟨(deleteOne_first_match ⟨1, [pR100a, pR100b], [], [], []⟩ bodyR100
      Faults.ok 0 rfl rfl rfl).1,
    (deleteOne_first_match ⟨1, [pR100a, pR100b], [], [], []⟩ bodyR100
      Faults.ok 0 rfl rfl rfl).2.1⟩

/-- C1 counterexample: with two printids documents carrying
registerNumber "R100", the accept call succeeds (201) yet the subsequent
GET /api/printed still returns a document with registerNumber "R100" —
the claimed roundtrip fails at this input. -/
theorem accept_then_reads_counterexample :
    (serverHandle ⟨1, [pR100a, pR100b], [], [], []⟩
        (.acceptIdcard bodyR100) Faults.ok 0).1.status = 201 ∧
    bodyR100.registerNumber = some "R100" ∧
    serverHandle
        (serverHandle ⟨1, [pR100a, pR100b], [], [], []⟩
          (.acceptIdcard bodyR100) Faults.ok 0).2 .printed Faults.ok 1 =
      (⟨200, .printedList [pR100b]⟩,
        (serverHandle ⟨1, [pR100a, pR100b], [], [], []⟩
          (.acceptIdcard bodyR100) Faults.ok 0).2) ∧
    pR100b.registerNumber = some "R100" := by
  decide

/-- C1 amended: if before the call no accepted document matches
(registerNumber "R100", status "accepted"), at most one printids
document has registerNumber "R100", and the body carries registerNumber
"R100" and no status, then after a successful accept (201) the GET
/api/accepted-idcards answer holds exactly one document matching
(registerNumber "R100", status "accepted") and the GET /api/printed
answer holds none with registerNumber "R100". -/
theorem accept_then_reads (db : DB) (b : Body) (now later : Nat)
    (h : db.readyState = 1)
    (hreg : b.registerNumber = some "R100")
    (hstat : b.status = none)
    (hacc : db.acceptedidcards.countP (acceptedMatches "R100" "accepted") = 0)
    (hpr : db.printids.countP (printMatches (some "R100")) ≤ 1) :
    (serverHandle db (.acceptIdcard b) Faults.ok now).1.status = 201 ∧
    serverHandle (serverHandle db (.acceptIdcard b) Faults.ok now).2
        .acceptedIdcards Faults.ok later =
      (⟨200, .acceptedList ((serverHandle db (.acceptIdcard b)
          Faults.ok now).2.acceptedidcards)⟩,
        (serverHandle db (.acceptIdcard b) Faults.ok now).2) ∧
    ((serverHandle db (.acceptIdcard b) Faults.ok now).2.acceptedidcards.countP
        (acceptedMatches "R100" "accepted")) = 1 ∧
    serverHandle (serverHandle db (.acceptIdcard b) Faults.ok now).2
        .printed Faults.ok later =
      (⟨200, .printedList ((serverHandle db (.acceptIdcard b)
          Faults.ok now).2.printids)⟩,
        (serverHandle db (.acceptIdcard b) Faults.ok now).2) ∧
    ((serverHandle db (.acceptIdcard b) Faults.ok now).2.printids.countP
        (printMatches (some "R100"))) = 0 := by
  have hmain : serverHandle db (.acceptIdcard b) Faults.ok now =
      (⟨201, .acceptOk "ID card request accepted successfully"
          (mkAccepted b now)⟩,
        { db with
            acceptedidcards := db.acceptedidcards ++ [mkAccepted b now]
            printids := deleteOneByReg b.registerNumber db.printids }) := by
    simp [serverHandle, handleAcceptIdcard, acceptCore, h, Faults.ok]
  rw [hmain]
  refine ⟨rfl, ?_, ?_, ?_, ?_⟩
  · simp [serverHandle, handleAcceptedCards, h, Faults.ok]
  · simp [List.countP_append, hacc, List.countP_cons, acceptedMatches,
      mkAccepted, hreg, hstat]
  · simp [serverHandle, handlePrinted, h, Faults.ok]
  · have := countP_deleteOneByReg_eq_zero (some "R100") db.printids hpr
    simpa [hreg] using this

/-- Witness for `accept_then_reads` on a single matching printids
document: exactly one matching accepted document, no matching printed
document afterwards. -/
theorem accept_then_reads_witness :
    ((serverHandle ⟨1, [pR100a], [], [], []⟩ (.acceptIdcard bodyR100)
        Faults.ok 0).2.acceptedidcards.countP
        (acceptedMatches "R100" "accepted")) = 1 ∧
    ((serverHandle ⟨1, [pR100a], [], [], []⟩ (.acceptIdcard bodyR100)
        Faults.ok 0).2.printids.countP (printMatches (some "R100"))) = 0 :=
  ⟨(accept_then_reads ⟨1, [pR100a], [], [], []⟩ bodyR100 0 1 rfl rfl rfl rfl
      (by decide)).2.2.1,
    (accept_then_reads ⟨1, [pR100a], [], [], []⟩ bodyR100 0 1 rfl rfl rfl rfl
      (by decide)).2.2.2.2⟩

end IdCardService
